import Mathlib

/-!
Verification of the PDS DOI service action layer (reserve.py, draft.py,
dois_controller.py) against its natural-language specification.

The Python source is shallowly embedded: the `Doi` entity, the
`Transaction` commits, and the control flow of the Reserve, Draft and
Release-controller operations become pure Lean functions.  External
collaborators that live outside the embedded files (the PDS4 label
parser, the OSTI web client, the schematron/XSD validators, the business
rule validator, the transaction database) are passed in as explicit
function parameters, so every theorem quantifies over their behaviour.
Python exceptions become an `Except PyExc` result; in-place mutation of
the list of DOI records and of the transaction database becomes explicit
state threading (functions return the updated list/ledger alongside the
result).
-/

/-- The workflow states used by the embedded actions
(`pds_doi_service.core.entities.doi.DoiStatus`). -/
inductive DoiStatus where
  | Unknown
  | Draft
  | Reserved_not_submitted
  | Reserved
  | Pending_review
  | Registered
deriving DecidableEq, Repr

/-- The three overridable business-rule exception classes caught by the
Reserve and Draft actions. -/
inductive WarnExc where
  | DuplicatedTitleDOIException
  | UnexpectedDOIActionException
  | TitleDoesNotMatchProductTypeException
deriving DecidableEq, Repr

/-- The Python exceptions (and exception-like control flow such as
`exit(1)`) that the embedded code can raise.  `warnClass` is one of the
three overridable business-rule failures; `warningDOI` is the aggregate
`WarningDOIException` carrying its collected messages. -/
inductive PyExc where
  | inputFormat (msg : String)
  | unknownNode (msg : String)
  | unknownLIDVID (msg : String)
  | noTransactionHistory (msg : String)
  | warnClass (cls : WarnExc) (msg : String)
  | warningDOI (msgs : List String)
  | critical (msg : String)
  | valueError (msg : String)
  | typeError (msg : String)
  | indexError (msg : String)
  | systemExit (code : Nat)
  | osError (msg : String)
deriving DecidableEq, Repr

/-- The canonical DOI metadata record
(`pds_doi_service.core.entities.doi.Doi`), restricted to the fields the
embedded actions read or write.  `keywords` is a finite set, matching the
Python `set`. -/
structure Doi where
  title : String := ""
  doi : String := ""
  related_identifier : String := ""
  contributor : Option String := none
  publisher : Option String := none
  status : Option DoiStatus := none
  previous_status : Option DoiStatus := none
  date_record_added : Option String := none
  date_record_updated : Option String := none
  keywords : Finset String := ∅
  message : String := ""
deriving DecidableEq

/-- One committed transaction, as prepared by
`m_transaction_builder.prepare_transaction(node, submitter, dois,
input_path, output_content)` and written by `transaction.log()`.  The
transaction database is modelled as a `List Transaction`; `log()`
appends. -/
structure Transaction where
  node : String
  submitter : String
  dois : List Doi
  input_path : String
  output_content : String
deriving DecidableEq

instance : DecidableEq (Except PyExc (List Doi)) := fun a b =>
  match a, b with
  | .ok x, .ok y => decidable_of_iff (x = y) (by constructor <;> (intro h; first | rw [h] | injection h))
  | .error x, .error y => decidable_of_iff (x = y) (by constructor <;> (intro h; first | rw [h] | injection h))
  | .ok _, .error _ => isFalse (by intro h; injection h)
  | .error _, .ok _ => isFalse (by intro h; injection h)

/-- Splitting of a character list on a separator, accumulating the
current (reversed) token: the embedding of Python `str.split(sep)` for a
one-character separator. -/
def charsSplit (sep : Char) : List Char → List Char → List (List Char)
  | [], acc => [acc.reverse]
  | c :: rest, acc =>
    if c = sep then acc.reverse :: charsSplit sep rest []
    else charsSplit sep rest (c :: acc)

/-- `pySplit sep s` is Python `s.split(sep)` for a one-character
separator, written structurally over the character list so that
concrete instances evaluate inside the kernel (the library `splitOn`
uses well-founded recursion and does not reduce). -/
def pySplit (sep : Char) (s : String) : List String :=
  (charsSplit sep s.data []).map (fun l => ⟨l⟩)

/-- Does the first character list lead the second? -/
def charsLead : List Char → List Char → Bool
  | [], _ => true
  | _ :: _, [] => false
  | p :: ps, c :: cs => if p = c then charsLead ps cs else false

/-- Python `s.startswith(pre)`, written structurally. -/
def pyStartsWith (s pre : String) : Bool :=
  charsLead pre.data s.data

/-- Python `s.endswith(post)`, written structurally. -/
def pyEndsWith (s post : String) : Bool :=
  charsLead post.data.reverse s.data.reverse

/-- Leading-whitespace removal on a character list. -/
def stripLeadingWS : List Char → List Char
  | [] => []
  | c :: rest =>
    if c.isWhitespace then stripLeadingWS rest else c :: rest

/-- Python `s.strip()`: whitespace removed from both ends, written
structurally. -/
def pyStrip (s : String) : String :=
  ⟨stripLeadingWS ((stripLeadingWS s.data.reverse).reverse)⟩

/-- The status stamped onto every record of a Reserve batch:
`DoiStatus.Reserved_not_submitted if dry_run else DoiStatus.Reserved`. -/
def reserveStatus (dry_run : Bool) : DoiStatus :=
  if dry_run then DoiStatus.Reserved_not_submitted else DoiStatus.Reserved

/-- The field assignments performed on each record by the first loop of
`DOICoreActionReserve.complete_and_validate_dois`: contributor,
publisher, status and date_record_added are set before any validation
runs. -/
def assignReserveFields (contributor publisher : String) (dry_run : Bool)
    (now : String) (d : Doi) : Doi :=
  { d with contributor := some contributor, publisher := some publisher,
           status := some (reserveStatus dry_run),
           date_record_added := some now }

/-- Modelled from the spec: `collect_exception_classes_and_messages`
(from `pds_doi_service.core.input.exceptions`, which is not among the
embedded files) appends the caught failure class and its message to the
running collections, so that every business-rule failure across the
whole batch is available to the caller. -/
def collect_exception_classes_and_messages (cls : WarnExc) (msg : String)
    (classes : List WarnExc) (messages : List String) :
    List WarnExc × List String :=
  (classes ++ [cls], messages ++ [msg])

/-- Modelled from the spec: `raise_warn_exceptions` (from
`pds_doi_service.core.input.exceptions`, which is not among the embedded
files) raises a single aggregate `WarningDOIException` carrying every
collected message. -/
def raise_warn_exceptions (classes : List WarnExc) (messages : List String) :
    Except PyExc (List Doi) :=
  .error (.warningDOI messages)

/-- The second loop of `complete_and_validate_dois`: each record is
validated (`validate` on the dry-run path, `validate_osti_submission`
otherwise); the three business-rule exception classes are caught and
collected, while any other exception propagates immediately.  The
external validator is a parameter returning `none` on success and
`some e` for the exception it raises on the given record. -/
def reserve_collect_warnings (vd : Doi → Option PyExc) :
    List Doi → List WarnExc → List String →
    Except PyExc (List WarnExc × List String)
  | [], classes, messages => .ok (classes, messages)
  | d :: rest, classes, messages =>
    match vd d with
    | none => reserve_collect_warnings vd rest classes messages
    | some (.warnClass c m) =>
      let acc := collect_exception_classes_and_messages c m classes messages
      reserve_collect_warnings vd rest acc.1 acc.2
    | some e => .error e

/-- `DOICoreActionReserve.complete_and_validate_dois`.  The first
component of the result is the final state of the (mutated in place)
record list, which holds the assigned contributor, publisher, status and
date fields regardless of the validation outcome; the second component
is the returned value or the raised exception. -/
def complete_and_validate_dois (validate validate_osti : Doi → Option PyExc)
    (force : Bool) (now : String) (dois : List Doi)
    (contributor publisher : String) (dry_run : Bool) :
    List Doi × Except PyExc (List Doi) :=
  let dois := dois.map (assignReserveFields contributor publisher dry_run now)
  match reserve_collect_warnings
      (fun d => if dry_run then validate d else validate_osti d) dois [] [] with
  | .error e => (dois, .error e)
  | .ok (classes, messages) =>
    if classes.length > 0 ∧ force = false then
      (dois, raise_warn_exceptions classes messages)
    else
      (dois, .ok dois)

/-- The business-rule failures an external validator reports on a batch,
in batch order: the classified failure and message for each record on
which the validator raises one of the three warning classes. -/
def business_failures (vd : Doi → Option PyExc) (dois : List Doi) :
    List (WarnExc × String) :=
  dois.filterMap (fun d =>
    match vd d with
    | some (.warnClass c m) => some (c, m)
    | _ => none)

/-- A validator outcome that is either success or one of the three
overridable business-rule failures (the shapes the `except` clause of
`complete_and_validate_dois` is written for). -/
def is_business_rule_only (o : Option PyExc) : Prop :=
  o = none ∨ ∃ c m, o = some (.warnClass c m)

/-- `DOICoreActionReserve._read_from_local_xlsx`: the spreadsheet is
decoded by the external `DOIInputUtil.parse_sxls_file` (a parameter);
decoding to zero records raises an `InputFormatException`, but the
enclosing `except InputFormatException` clause logs it and calls
`exit(1)`, which is modelled as the `systemExit 1` outcome.  An `OSError`
from the decoder is re-raised as an `InputFormatException`. -/
def read_from_local_xlsx (parse_sxls : String → Except PyExc (List Doi))
    (path : String) : Except PyExc (List Doi) :=
  match parse_sxls path with
  | .error (.inputFormat _) => .error (.systemExit 1)
  | .error (.osError m) =>
    .error (.inputFormat ("Error reading file " ++ path ++ ", reason: " ++ m))
  | .error e => .error e
  | .ok dois =>
    if dois.length = 0 then .error (.systemExit 1)
    else .ok dois

/-- `DOICoreActionReserve._read_from_local_csv`: identical structure to
the xlsx reader, with `DOIInputUtil.parse_csv_file` as the decoder. -/
def read_from_local_csv (parse_csv : String → Except PyExc (List Doi))
    (path : String) : Except PyExc (List Doi) :=
  match parse_csv path with
  | .error (.inputFormat _) => .error (.systemExit 1)
  | .error (.osError m) =>
    .error (.inputFormat ("Error reading file " ++ path ++ ", reason: " ++ m))
  | .error e => .error e
  | .ok dois =>
    if dois.length = 0 then .error (.systemExit 1)
    else .ok dois

/-- A local filesystem entry handed to `_read_from_path`: a file (named
by its full path) or a directory with its immediate entries. -/
inductive FSEntry where
  | file (path : String)
  | dir (path : String) (entries : List FSEntry)

/-- The external per-format decoders used by
`DOICoreActionReserve._read_from_path`. -/
structure ReserveReadEnv where
  read_pds4 : String → Except PyExc (List Doi)
  parse_sxls : String → Except PyExc (List Doi)
  parse_csv : String → Except PyExc (List Doi)

mutual

/-- `DOICoreActionReserve._read_from_path`: a file is dispatched on its
extension (`.xml`, `.xlsx`/`.xls`, `.csv`); any other extension only
logs `file ... not supported` and falls off the end of the function,
returning Python `None` (modelled as `.ok none`).  A directory is walked
entry by entry (recursing into subdirectories) with
`dois.extend(self._read_from_path(sub_path))`. -/
def read_from_path (env : ReserveReadEnv) :
    FSEntry → Except PyExc (Option (List Doi))
  | .file path =>
    if pyEndsWith path ".xml" then (env.read_pds4 path).map some
    else if pyEndsWith path ".xlsx" ∨ pyEndsWith path ".xls" then
      (read_from_local_xlsx env.parse_sxls path).map some
    else if pyEndsWith path ".csv" then
      (read_from_local_csv env.parse_csv path).map some
    else .ok none
  | .dir _ entries => read_dir_entries env entries

/-- The directory loop of `_read_from_path`: `dois.extend(...)` applied
to the Python `None` produced for an unsupported extension raises
`TypeError`. -/
def read_dir_entries (env : ReserveReadEnv) :
    List FSEntry → Except PyExc (Option (List Doi))
  | [] => .ok (some [])
  | e :: rest =>
    match read_from_path env e with
    | .error ex => .error ex
    | .ok none => .error (.typeError "NoneType object is not iterable")
    | .ok (some ds) =>
      match read_dir_entries env rest with
      | .error ex => .error ex
      | .ok none => .ok none
      | .ok (some rest') => .ok (some (ds ++ rest'))

end

/-- One iteration of `_validate_against_xsd_as_batch` /
`_validate_against_schematron_as_batch`: each record is stamped with the
status and date fields, rendered alone through
`create_osti_doi_reserved_record`, and its label is checked; the first
check failure raises. -/
def validate_reserve_batch (check : String → Option PyExc)
    (mk_label : List Doi → String) (dry_run : Bool) (now : String) :
    List Doi → Except PyExc (List Doi)
  | [] => .ok []
  | d :: rest =>
    let d := { d with status := some (reserveStatus dry_run),
                      date_record_added := some now }
    match check (mk_label [d]) with
    | some e => .error e
    | none =>
      match validate_reserve_batch check mk_label dry_run now rest with
      | .error e => .error e
      | .ok rest' => .ok (d :: rest')

/-- The external collaborators of `DOICoreActionReserve.run`, other than
the OSTI web client (which is passed separately so that theorems can
quantify over it): the already-computed result of
`_parse_input(self._input)` (which can be the Python `None` that
`_read_from_path` produces for a top-level unsupported file), the
schema-validation flag and label checkers, the two record validators,
the label builder, the node long-name lookup and configuration. -/
structure ReserveEnv where
  parse_input : Except PyExc (Option (List Doi))
  xsd_flag : Bool
  validate_xsd : String → Option PyExc
  check_schematron : String → Option PyExc
  validate : Doi → Option PyExc
  validate_osti : Doi → Option PyExc
  create_reserved_label : List Doi → String
  node_long_name : Except PyExc String
  doi_publisher : String
  now : String

/-- The body of `DOICoreActionReserve.run` (the `try` block): parse the
input, run the XSD batch validation when configured, run the schematron
batch validation, complete and validate the records as a single batch
decision, build the batch label, submit it to the OSTI web client unless
`dry_run`, and commit one transaction for the whole batch. -/
def reserve_run_body (env : ReserveEnv)
    (web_client : String → Except PyExc (List Doi × String))
    (node submitter input : String) (dry_run force : Bool)
    (ledger : List Transaction) :
    Except PyExc (List Transaction × String) :=
  match env.parse_input with
  | .error e => .error e
  | .ok none => .error (.typeError "NoneType object is not iterable")
  | .ok (some dois0) =>
    match (if env.xsd_flag then
             validate_reserve_batch env.validate_xsd env.create_reserved_label
               dry_run env.now dois0
           else .ok dois0) with
    | .error e => .error e
    | .ok dois1 =>
      match validate_reserve_batch env.check_schematron
          env.create_reserved_label dry_run env.now dois1 with
      | .error e => .error e
      | .ok dois2 =>
        match env.node_long_name with
        | .error e => .error e
        | .ok contributor =>
          match (complete_and_validate_dois env.validate env.validate_osti
              force env.now dois2 contributor env.doi_publisher dry_run).2 with
          | .error e => .error e
          | .ok dois3 =>
            let label := env.create_reserved_label dois3
            match (if dry_run then .ok (dois3, label)
                   else web_client label) with
            | .error e => .error e
            | .ok (dois4, label4) =>
              .ok (ledger ++ [⟨node, submitter, dois4, input, label4⟩], label4)

/-- The `except` clause of `DOICoreActionReserve.run`:
`UnknownNodeException` and `InputFormatException` are wrapped as a
`CriticalDOIException`; everything else propagates unchanged.  On an
exception the transaction database is untouched. -/
def reserve_handler (ledger : List Transaction) :
    Except PyExc (List Transaction × String) →
    List Transaction × Except PyExc String
  | .ok (l, s) => (l, .ok s)
  | .error (.unknownNode m) => (ledger, .error (.critical m))
  | .error (.inputFormat m) => (ledger, .error (.critical m))
  | .error e => (ledger, .error e)

/-- `DOICoreActionReserve.run`: the transaction database state is
threaded explicitly and returned alongside the result. -/
def reserve_run (env : ReserveEnv)
    (web_client : String → Except PyExc (List Doi × String))
    (node submitter input : String) (dry_run force : Bool)
    (ledger : List Transaction) :
    List Transaction × Except PyExc String :=
  reserve_handler ledger
    (reserve_run_body env web_client node submitter input dry_run force ledger)

/-- The row of the transaction database returned by
`DOICoreActionList.transaction_for_lidvid` (that action is outside the
embedded files; its result is the record the controllers read
`transaction_key`, `node_id` and `submitter` from). -/
structure ListRecord where
  transaction_key : String
  node_id : String
  submitter : String
deriving DecidableEq

/-- The external collaborators of `DOICoreActionDraft`: the filesystem
predicates used to resolve inputs, the PDS4 label parser (`parse_xml`
returns the parsed tree, abstracted as a `String`, or the `OSError`
message), the field extractor, the label checkers, the business-rule
validator, the label builder, the node long-name lookup, and the
transaction-database lookup used by the LIDVID reversion path. -/
structure DraftEnv where
  fs_isdir : String → Bool
  fs_listdir : String → List String
  fs_isfile : String → Bool
  parse_xml : String → Except String String
  fetch_url : String → String
  get_doi_fields : String → Doi
  doi_publisher : String
  check_schematron : String → Option PyExc
  xsd_flag : Bool
  check_xsd : String → Option PyExc
  validate : Doi → Option PyExc
  create_draft_label : Doi → String
  node_long_name : Except PyExc String
  transaction_for_lidvid : String → Except PyExc ListRecord
  file_exists : String → Bool
  get_record_for_lidvid : String → String → String
  parse_osti_xml : String → List Doi × List String

/-- `DOICoreActionDraft._add_extra_keywords`: the caller-supplied
keyword string is split on commas and each token is stripped of
surrounding whitespace before being added to the record keyword set. -/
def add_extra_keywords (keywords : String) (io_doi : Doi) : Doi :=
  (pySplit (Char.ofNat 44) keywords).foldl
    (fun d one_keyword =>
      { d with keywords := insert (pyStrip one_keyword) d.keywords }) io_doi

/-- The record construction of
`DOICoreActionDraft._transform_pds4_label_into_osti_record` once an XML
tree is in hand: extract the DOI fields, set publisher, contributor and
the `Draft` status, add the caller keywords if truthy, always add the
node long name (the contributor value) as a keyword, and render the
draft label. -/
def draft_build_doi (env : DraftEnv) (contributor_value : String)
    (keywords : Option String) (xml_tree : String) : String × Doi :=
  let o_doi := env.get_doi_fields xml_tree
  let o_doi := { o_doi with publisher := some env.doi_publisher,
                            contributor := some contributor_value,
                            status := some DoiStatus.Draft }
  let o_doi :=
    match keywords with
    | some k => if k ≠ "" then add_extra_keywords k o_doi else o_doi
    | none => o_doi
  let o_doi := { o_doi with keywords := insert contributor_value o_doi.keywords }
  (env.create_draft_label o_doi, o_doi)

/-- `DOICoreActionDraft._transform_pds4_label_into_osti_record`: a
non-HTTP input that does not end in `.xml` is only logged as
unsupported and yields `(None, None)` (modelled `.ok none`); a local
`.xml` file that fails to read raises `InputFormatException`; an HTTP
input is fetched into memory.  On success the produced label and record
are returned. -/
def transform_pds4_label_into_osti_record (env : DraftEnv)
    (contributor_value : String) (keywords : Option String)
    (input_file : String) : Except PyExc (Option (String × Doi)) :=
  if pyStartsWith input_file "http" = false then
    if pyEndsWith input_file ".xml" then
      match env.parse_xml input_file with
      | .error err =>
        .error (.inputFormat
          ("Error reading file " ++ input_file ++ ", reason: " ++ err))
      | .ok tree => .ok (some (draft_build_doi env contributor_value keywords tree))
    else .ok none
  else .ok (some (draft_build_doi env contributor_value keywords (env.fetch_url input_file)))

/-- The `try` block of `DOICoreActionDraft._run_single_file`: transform
the input, check the label against schematron (and the XSD when
configured), validate the record, and commit one transaction.  An input
that yields no label is skipped (`None`). -/
def run_single_file_body (env : DraftEnv)
    (node submitter contributor_value : String) (keywords : Option String)
    (ledger : List Transaction) (input_file : String) :
    Except PyExc (List Transaction × Option String) :=
  match transform_pds4_label_into_osti_record env contributor_value keywords input_file with
  | .error e => .error e
  | .ok none => .ok (ledger, none)
  | .ok (some (doi_label, doi_obj)) =>
    match (if doi_label ≠ "" then
             match env.check_schematron doi_label with
             | some e => some e
             | none => if env.xsd_flag then env.check_xsd doi_label else none
           else none) with
    | some e => .error e
    | none =>
      match env.validate doi_obj with
      | some e => .error e
      | none =>
        let tx : Transaction := ⟨node, submitter, [doi_obj], input_file, doi_label⟩
        .ok (ledger ++ [tx], some doi_label)

/-- `DOICoreActionDraft._run_single_file`: the three business-rule
exception classes are re-raised as a `WarningDOIException` carrying the
message when `force` is not set, or logged and swallowed (the function
returns `None`) when it is; an `InputFormatException` is wrapped as a
`CriticalDOIException`; everything else propagates.  No transaction is
committed for the failing input. -/
def run_single_file (env : DraftEnv)
    (node submitter contributor_value : String) (force : Bool)
    (keywords : Option String) (ledger : List Transaction)
    (input_file : String) :
    List Transaction × Except PyExc (Option String) :=
  match run_single_file_body env node submitter contributor_value keywords ledger input_file with
  | .ok (l, r) => (l, .ok r)
  | .error (.warnClass _ m) =>
    if force = false then (ledger, .error (.warningDOI [m]))
    else (ledger, .ok none)
  | .error (.inputFormat m) => (ledger, .error (.critical m))
  | .error e => (ledger, .error e)

/-- `DOICoreActionDraft._resolve_input_into_list_of_names`: the input
string is split on commas; empty tokens are dropped; a token naming a
directory expands (non-recursively) to its immediate regular files; any
other token is kept as a file name or URL. -/
def resolve_input_into_list_of_names (env : DraftEnv)
    (input_labels : String) : List String :=
  (pySplit (Char.ofNat 44) input_labels).foldl
    (fun o_list token =>
      if token.length > 0 then
        if env.fs_isdir token then
          o_list ++ ((env.fs_listdir token).filter
              (fun f => env.fs_isfile (token ++ "/" ++ f))).map
            (fun f => token ++ "/" ++ f)
        else o_list ++ [token]
      else o_list) []

/-- The per-input loop of `DOICoreActionDraft._draft_input_files`: each
resolved input is processed by `_run_single_file`; an input yielding no
label is skipped; the record labels of the successful inputs are
concatenated (the XML `records` document is abstracted as the list of
contributing labels).  An exception raised for one input propagates out
of the loop, leaving transactions already committed for the earlier
inputs in place and never reaching the later inputs. -/
def draft_process_files (env : DraftEnv)
    (node submitter contributor_value : String) (force : Bool)
    (keywords : Option String) :
    List String → List Transaction →
    List Transaction × Except PyExc (List String)
  | [], ledger => (ledger, .ok [])
  | input_file :: rest, ledger =>
    match run_single_file env node submitter contributor_value force keywords ledger input_file with
    | (l, .error e) => (l, .error e)
    | (l, .ok none) =>
      draft_process_files env node submitter contributor_value force keywords rest l
    | (l, .ok (some label)) =>
      match draft_process_files env node submitter contributor_value force keywords rest l with
      | (l', .error e) => (l', .error e)
      | (l', .ok labels) => (l', .ok (label :: labels))

/-- `DOICoreActionDraft._draft_input_files`: look up the node long name
(an `UnknownNodeException` becomes a `CriticalDOIException`), resolve
the comma-delimited input string into file names, and process each. -/
def draft_input_files (env : DraftEnv) (node submitter : String)
    (force : Bool) (keywords : Option String) (ledger : List Transaction)
    (inputs : String) : List Transaction × Except PyExc (List String) :=
  match env.node_long_name with
  | .error (.unknownNode m) => (ledger, .error (.critical m))
  | .error e => (ledger, .error e)
  | .ok contributor_value =>
    match draft_process_files env node submitter contributor_value force
        keywords (resolve_input_into_list_of_names env inputs) ledger with
    | (l, .error (.unknownNode m)) => (l, .error (.critical m))
    | r => r

/-- `DOICoreActionDraft._set_lidvid_to_draft`: look up the latest
transaction for the LIDVID, require its stored `output.xml` artifact to
exist (raising `NoTransactionHistoryForLIDVIDException` otherwise),
extract and reparse just that identifier entry, record the prior status
as `previous_status`, set the status back to `Draft`, rebuild the label
and commit a new transaction. -/
def set_lidvid_to_draft (env : DraftEnv) (node submitter : String)
    (ledger : List Transaction) (lidvid : String) :
    List Transaction × Except PyExc String :=
  match env.transaction_for_lidvid lidvid with
  | .error e => (ledger, .error e)
  | .ok transaction_record =>
    let osti_label_file := transaction_record.transaction_key ++ "/output.xml"
    if env.file_exists osti_label_file = false then
      (ledger, .error (.noTransactionHistory
        ("Could not find an OSTI Label associated with LIDVID " ++ lidvid ++
         ". The database and transaction history location may be out of sync. " ++
         "Please try resubmitting the record in reserve or draft.")))
    else
      match env.parse_osti_xml (env.get_record_for_lidvid osti_label_file lidvid) with
      | ([], _) => (ledger, .error (.indexError "list index out of range"))
      | (doi :: _, _) =>
        let doi := { doi with previous_status := doi.status,
                              status := some DoiStatus.Draft }
        let doi_label := env.create_draft_label doi
        let tx : Transaction := ⟨node, submitter, [doi], osti_label_file, doi_label⟩
        (ledger ++ [tx], .ok doi_label)

/-- The result of a Draft invocation: the single rebuilt label of a
LIDVID reversion, or the combined per-input labels of an input batch. -/
inductive DraftOutput where
  | single (label : String)
  | combined (labels : List String)
deriving DecidableEq

/-- Python truthiness of an optional string argument: absent or empty is
falsy. -/
def truthy : Option String → Bool
  | none => false
  | some s => s ≠ ""

/-- `DOICoreActionDraft.run`: with neither `--input` nor `--lidvid` a
`ValueError` is raised; a truthy `lidvid` selects the reversion path
(ignoring any input); otherwise a truthy `input` selects the batch path;
with both arguments present but empty the function falls through and
returns Python `None`. -/
def draft_run (env : DraftEnv) (node submitter : String) (force : Bool)
    (keywords : Option String) (ledger : List Transaction)
    (input lidvid : Option String) :
    List Transaction × Except PyExc (Option DraftOutput) :=
  if input = none ∧ lidvid = none then
    (ledger, .error (.valueError
      ("A value must be provided for either --input or --lidvid " ++
       "when using the Draft action.")))
  else if truthy lidvid then
    match set_lidvid_to_draft env node submitter ledger (lidvid.getD "") with
    | (l, .error e) => (l, .error e)
    | (l, .ok label) => (l, .ok (some (.single label)))
  else if truthy input then
    match draft_input_files env node submitter force keywords ledger (input.getD "") with
    | (l, .error e) => (l, .error e)
    | (l, .ok labels) => (l, .ok (some (.combined labels)))
  else (ledger, .ok none)

/-- The message carried by an embedded Python exception (what `str(err)`
and `format_exceptions` expose to the API caller). -/
def pyExcMessage : PyExc → String
  | .inputFormat m => m
  | .unknownNode m => m
  | .unknownLIDVID m => m
  | .noTransactionHistory m => m
  | .warnClass _ m => m
  | .warningDOI ms => String.intercalate "\n" ms
  | .critical m => m
  | .valueError m => m
  | .typeError m => m
  | .indexError m => m
  | .systemExit _ => "SystemExit"
  | .osError m => m

/-- An HTTP response of the API controller: the status code, the
formatted exception body on errors, and the parsed records on
success. -/
structure ApiResponse where
  status : Nat
  errorBody : Option String
  dois : List Doi
deriving DecidableEq

/-- The `except` clauses of `post_release_doi`: `ValueError` and
`WarningDOIException` map to 400, `UnknownLIDVIDException` to 404
(not found), and any other exception to 500. -/
def api_error_response (e : PyExc) : ApiResponse :=
  match e with
  | .valueError m => ⟨400, some m, []⟩
  | .warningDOI ms => ⟨400, some (String.intercalate "\n" ms), []⟩
  | .unknownLIDVID m => ⟨404, some m, []⟩
  | e => ⟨500, some (pyExcMessage e), []⟩

/-- The external collaborators of the `post_release_doi` controller: the
transaction-database lookup, the artifact existence check, the
single-identifier extraction from a stored label, the release action
(which threads the transaction database, since it commits on success)
and the response parser. -/
structure ReleaseEnv where
  transaction_for_lidvid : String → Except PyExc ListRecord
  file_exists : String → Bool
  get_record_for_lidvid : String → String → String
  release_run : String → String → String → Bool → Bool →
    List Transaction → List Transaction × Except PyExc String
  parse_osti_xml : String → List Doi × List String

/-- `post_release_doi` from `dois_controller.py`: look up the latest
transaction for the LIDVID (an `UnknownLIDVIDException` from the lookup
reaches the 404 handler), require the stored `output.xml` artifact to
exist (raising `NoTransactionHistoryForLIDVIDException`, which reaches
the generic 500 handler, with nothing committed), extract the matching
entry, run the release action, and propagate any OSTI error list as one
aggregate `WarningDOIException` (status 400) even though the release
transaction has already been committed. -/
def post_release_doi (env : ReleaseEnv) (ledger : List Transaction)
    (lidvid : String) (force no_review : Bool) :
    List Transaction × ApiResponse :=
  match env.transaction_for_lidvid lidvid with
  | .error e => (ledger, api_error_response e)
  | .ok list_record =>
    let osti_label_file := list_record.transaction_key ++ "/output.xml"
    if env.file_exists osti_label_file = false then
      (ledger, api_error_response (.noTransactionHistory
        ("Could not find an OSTI Label associated with LIDVID " ++ lidvid ++
         ". The database and transaction history location may be out of sync. " ++
         "Please try resubmitting the record in reserve or draft.")))
    else
      match env.release_run list_record.node_id list_record.submitter
          (env.get_record_for_lidvid osti_label_file lidvid) force no_review
          ledger with
      | (ledger', .error e) => (ledger', api_error_response e)
      | (ledger', .ok osti_release_label) =>
        match env.parse_osti_xml osti_release_label with
        | (dois, errors) =>
          if errors.isEmpty = false then
            (ledger', api_error_response (.warningDOI
              ["Received the following errors from the release request to OSTI:\n" ++
               String.intercalate "\n" errors]))
          else (ledger', ⟨200, none, dois⟩)

/-- Does the result carry an `InputFormatException`?  Used to state that
a reader outcome is not the error the specification promises. -/
def isInputFormatResult : Except PyExc (List Doi) → Bool
  | .error (.inputFormat _) => true
  | _ => false

/-- A concrete Draft environment for evaluating the embedded code on
small inputs: every input parses, the extracted record carries its
source name as title, and the business-rule validator flags exactly the
record produced from `bad.xml` with a duplicated-title failure. -/
def draftEnvEx : DraftEnv where
  fs_isdir := fun _ => false
  fs_listdir := fun _ => []
  fs_isfile := fun _ => false
  parse_xml := fun f => .ok f
  fetch_url := fun u => u
  get_doi_fields := fun t => { title := t }
  doi_publisher := "Planetary Data System"
  check_schematron := fun _ => none
  xsd_flag := false
  check_xsd := fun _ => none
  validate := fun d =>
    if d.title = "bad.xml" then
      some (.warnClass .DuplicatedTitleDOIException "duplicate title")
    else none
  create_draft_label := fun d => "label:" ++ d.title
  node_long_name := .ok "Engineering"
  transaction_for_lidvid := fun lv =>
    if lv = "urn:known" then .ok ⟨"txdir", "eng", "sub@x"⟩
    else if lv = "urn:missing" then .ok ⟨"nodir", "eng", "sub@x"⟩
    else .error (.unknownLIDVID ("No record for " ++ lv))
  file_exists := fun f => f = "txdir/output.xml"
  get_record_for_lidvid := fun _ lv => lv
  parse_osti_xml := fun s => ([{ title := s, status := some DoiStatus.Reserved }], [])

/-- The record `draftEnvEx` produces for the input `good.xml`. -/
def goodDoiEx : Doi :=
  { title := "good.xml", publisher := some "Planetary Data System",
    contributor := some "Engineering", status := some DoiStatus.Draft,
    keywords := insert "Engineering" ∅ }

/-- A concrete Reserve environment in which every step succeeds. -/
def reserveEnvEx : ReserveEnv where
  parse_input := .ok (some [{ title := "rec1" }])
  xsd_flag := false
  validate_xsd := fun _ => none
  check_schematron := fun _ => none
  validate := fun _ => none
  validate_osti := fun _ => none
  create_reserved_label := fun ds => String.intercalate ";" (ds.map Doi.title)
  node_long_name := .ok "Engineering"
  doi_publisher := "Planetary Data System"
  now := "2020-10-01"

/-- A concrete OSTI web client returning a record with an assigned DOI
string. -/
def webClientEx : String → Except PyExc (List Doi × String) :=
  fun s => .ok ([{ title := "from-osti", doi := "10.17189/1001" }], "osti:" ++ s)

/-- A second concrete OSTI web client, used to show the dry-run path
never consults the client. -/
def webClientFailEx : String → Except PyExc (List Doi × String) :=
  fun _ => .error (.critical "network down")

/-- A concrete Release environment: one known LIDVID whose stored
artifact is missing, every other LIDVID unknown. -/
def releaseEnvEx : ReleaseEnv where
  transaction_for_lidvid := fun lv =>
    if lv = "urn:known" then .ok ⟨"nodir", "eng", "sub@x"⟩
    else .error (.unknownLIDVID ("No record for " ++ lv))
  file_exists := fun _ => false
  get_record_for_lidvid := fun _ lv => lv
  release_run := fun _ _ _ _ _ l => (l, .ok "label")
  parse_osti_xml := fun _ => ([], [])

/-- The record committed by a dry-run Reserve of `reserveEnvEx`. -/
def reservedDoiEx : Doi :=
  { title := "rec1", contributor := some "Engineering",
    publisher := some "Planetary Data System",
    status := some DoiStatus.Reserved_not_submitted,
    date_record_added := some "2020-10-01" }

/-- The record `webClientEx` returns from a submission. -/
def ostiDoiEx : Doi := { title := "from-osti", doi := "10.17189/1001" }

/-- A validator that flags every record with a duplicated-title
failure. -/
def warnValidatorEx : Doi → Option PyExc :=
  fun _ => some (.warnClass .DuplicatedTitleDOIException "duplicate title")

/-- A validator that accepts every record. -/
def okValidatorEx : Doi → Option PyExc := fun _ => none

/-! ## Theorems -/

theorem reserve_collect_warnings_eq (vd : Doi → Option PyExc) (l : List Doi)
    (h : ∀ d ∈ l, is_business_rule_only (vd d)) (cs : List WarnExc)
    (ms : List String) :
    reserve_collect_warnings vd l cs ms =
      .ok (cs ++ (business_failures vd l).map Prod.fst,
           ms ++ (business_failures vd l).map Prod.snd) := by
  induction l generalizing cs ms with
  | nil => simp [reserve_collect_warnings, business_failures]
  | cons d rest ih =>
    have hd := h d (List.mem_cons_self d rest)
    have hrest : ∀ x ∈ rest, is_business_rule_only (vd x) :=
      fun x hx => h x (List.mem_cons_of_mem d hx)
    rcases hd with hv | ⟨c, m, hv⟩
    · simp [reserve_collect_warnings, hv, business_failures,
        List.filterMap_cons, ih hrest]
    · simp [reserve_collect_warnings, hv, business_failures,
        collect_exception_classes_and_messages, List.filterMap_cons,
        ih hrest]

/-- C1: when Reserve validates a batch, every record is checked and
every business-rule failure (DuplicatedTitle, UnexpectedTransition,
TitleMismatch) across the whole batch is collected before any decision;
if at least one failure was collected and force is not set, exactly one
aggregate WarningDOIException carrying every collected message is
raised; if force is set or no failure was collected, the list of records
is returned and no warning exception is raised. -/
theorem C1_reserve_batch_failures_aggregated
    (validate validate_osti : Doi → Option PyExc) (force : Bool)
    (now : String) (dois : List Doi) (contributor publisher : String)
    (dry_run : Bool)
    (hv : ∀ d, is_business_rule_only
      (if dry_run then validate d else validate_osti d)) :
    (business_failures (fun d => if dry_run then validate d else validate_osti d)
        (dois.map (assignReserveFields contributor publisher dry_run now)) ≠ [] ∧
      force = false →
      (complete_and_validate_dois validate validate_osti force now dois
          contributor publisher dry_run).2 =
        .error (.warningDOI
          ((business_failures
              (fun d => if dry_run then validate d else validate_osti d)
              (dois.map (assignReserveFields contributor publisher dry_run now))).map
            Prod.snd))) ∧
    (business_failures (fun d => if dry_run then validate d else validate_osti d)
        (dois.map (assignReserveFields contributor publisher dry_run now)) = [] ∨
      force = true →
      (complete_and_validate_dois validate validate_osti force now dois
          contributor publisher dry_run).2 =
        .ok (dois.map (assignReserveFields contributor publisher dry_run now))) := by
  have hcol := reserve_collect_warnings_eq
    (fun d => if dry_run then validate d else validate_osti d)
    (dois.map (assignReserveFields contributor publisher dry_run now))
    (fun d _ => hv d) [] []
  constructor
  · rintro ⟨hne, hf⟩
    simp only [complete_and_validate_dois, hcol, List.nil_append]
    rw [if_pos]
    · simp [raise_warn_exceptions]
    · refine ⟨?_, hf⟩
      simpa [List.length_pos] using hne
  · intro hor
    simp only [complete_and_validate_dois, hcol, List.nil_append]
    rw [if_neg]
    rcases hor with hnil | htrue
    · simp [hnil]
    · simp [htrue]

/-- C1 witness: a concrete two-record batch in which both records fail
with a duplicated title is rejected with one aggregate exception
carrying both messages, and the same batch passes when force is set. -/
theorem C1_reserve_batch_failures_aggregated_witness :
    (complete_and_validate_dois warnValidatorEx warnValidatorEx false
        "2020-10-01" [{ title := "a" }, { title := "b" }] "Engineering"
        "Planetary Data System" true).2 =
      .error (.warningDOI ["duplicate title", "duplicate title"]) ∧
    (complete_and_validate_dois warnValidatorEx warnValidatorEx true
        "2020-10-01" [{ title := "a" }, { title := "b" }] "Engineering"
        "Planetary Data System" true).2 =
      .ok ([{ title := "a" }, { title := "b" }].map
        (assignReserveFields "Engineering" "Planetary Data System" true
          "2020-10-01")) := by
  constructor
  · exact (C1_reserve_batch_failures_aggregated warnValidatorEx warnValidatorEx
      false "2020-10-01" [{ title := "a" }, { title := "b" }] "Engineering"
      "Planetary Data System" true
      (fun d => Or.inr ⟨_, _, rfl⟩)).1 ⟨by decide, rfl⟩
  · exact (C1_reserve_batch_failures_aggregated warnValidatorEx warnValidatorEx
      true "2020-10-01" [{ title := "a" }, { title := "b" }] "Engineering"
      "Planetary Data System" true
      (fun d => Or.inr ⟨_, _, rfl⟩)).2 (Or.inr rfl)

/-- C2: for every record in a Reserve batch, the contributor, publisher,
status and record-added-date fields are assigned before any per-record
validation runs: the final state of the batch list is the
field-assigned list whatever the validation outcome, so even when
validation raises (or failures are overridden with force) every record
already holds its final contributor, publisher, status and date
values. -/
theorem C2_reserve_fields_assigned_before_validation
    (validate validate_osti : Doi → Option PyExc) (force : Bool)
    (now : String) (dois : List Doi) (contributor publisher : String)
    (dry_run : Bool) :
    (complete_and_validate_dois validate validate_osti force now dois
        contributor publisher dry_run).1 =
      dois.map (assignReserveFields contributor publisher dry_run now) ∧
    ∀ d ∈ (complete_and_validate_dois validate validate_osti force now dois
        contributor publisher dry_run).1,
      d.contributor = some contributor ∧ d.publisher = some publisher ∧
      d.status = some (reserveStatus dry_run) ∧
      d.date_record_added = some now := by
  have h1 : (complete_and_validate_dois validate validate_osti force now dois
      contributor publisher dry_run).1 =
      dois.map (assignReserveFields contributor publisher dry_run now) := by
    simp only [complete_and_validate_dois]
    rcases hr : reserve_collect_warnings
        (fun d => if dry_run then validate d else validate_osti d)
        (dois.map (assignReserveFields contributor publisher dry_run now))
        [] [] with e | ⟨cs, ms⟩
    · rfl
    · dsimp only
      split <;> rfl
  refine ⟨h1, ?_⟩
  rw [h1]
  intro d hd
  rcases List.mem_map.mp hd with ⟨d0, _, rfl⟩
  exact ⟨rfl, rfl, rfl, rfl⟩

/-- C2 witness: the final state of a concrete batch whose validation
fails still holds the assigned contributor, publisher, status and date
fields. -/
theorem C2_reserve_fields_assigned_before_validation_witness :
    (complete_and_validate_dois warnValidatorEx warnValidatorEx false
        "2020-10-01" [{ title := "a" }] "Engineering"
        "Planetary Data System" true).1 =
      [{ title := "a" }].map
        (assignReserveFields "Engineering" "Planetary Data System" true
          "2020-10-01") :=
  (C2_reserve_fields_assigned_before_validation warnValidatorEx
    warnValidatorEx false "2020-10-01" [{ title := "a" }] "Engineering"
    "Planetary Data System" true).1

theorem reserve_handler_ok {ledger l : List Transaction} {lab : String}
    {r : Except PyExc (List Transaction × String)}
    (h : reserve_handler ledger r = (l, .ok lab)) : r = .ok (l, lab) := by
  cases r with
  | ok p =>
    cases p with
    | mk a b =>
      simp only [reserve_handler, Prod.mk.injEq, Except.ok.injEq] at h
      rw [h.1, h.2]
  | error e => cases e <;> simp [reserve_handler] at h

theorem complete_and_validate_dois_ok
    {validate validate_osti : Doi → Option PyExc} {force : Bool}
    {now : String} {dois : List Doi} {contributor publisher : String}
    {dry_run : Bool} {ds : List Doi}
    (h : (complete_and_validate_dois validate validate_osti force now dois
        contributor publisher dry_run).2 = .ok ds) :
    ds = dois.map (assignReserveFields contributor publisher dry_run now) := by
  simp only [complete_and_validate_dois] at h
  rcases hr : reserve_collect_warnings
      (fun d => if dry_run then validate d else validate_osti d)
      (dois.map (assignReserveFields contributor publisher dry_run now))
      [] [] with e | ⟨cs, ms⟩
  · rw [hr] at h; simp at h
  · rw [hr] at h
    dsimp only at h
    split at h
    · simp [raise_warn_exceptions] at h
    · simp only [Except.ok.injEq] at h
      exact h.symm

/-- C3: Reserve with dry_run never consults the OSTI web client and
commits a batch whose every record has status Reserved-not-submitted;
without dry_run the committed records and output document on the
non-error path are exactly what the client returned, adopting its DOI
strings verbatim. -/
theorem C3_reserve_dry_run_vs_submission (env : ReserveEnv)
    (wc wc' : String → Except PyExc (List Doi × String))
    (node submitter input : String) (force : Bool)
    (ledger : List Transaction) :
    reserve_run env wc node submitter input true force ledger =
      reserve_run env wc' node submitter input true force ledger ∧
    (∀ ledger' lab,
      reserve_run env wc node submitter input true force ledger =
        (ledger', .ok lab) →
      ∃ ds, ledger' = ledger ++ [⟨node, submitter, ds, input, lab⟩] ∧
        ∀ d ∈ ds, d.status = some DoiStatus.Reserved_not_submitted) ∧
    (∀ ledger' lab,
      reserve_run env wc node submitter input false force ledger =
        (ledger', .ok lab) →
      ∃ ds sent, wc sent = .ok (ds, lab) ∧
        ledger' = ledger ++ [⟨node, submitter, ds, input, lab⟩]) := by
  refine ⟨rfl, ?_, ?_⟩
  · intro ledger' lab h
    have hb := reserve_handler_ok h
    unfold reserve_run_body at hb
    rcases hp : env.parse_input with e | o
    · rw [hp] at hb; simp at hb
    rcases o with _ | dois0
    · rw [hp] at hb; simp at hb
    rw [hp] at hb; dsimp only at hb
    rcases hx : (if env.xsd_flag then
        validate_reserve_batch env.validate_xsd env.create_reserved_label
          true env.now dois0
      else .ok dois0) with e | dois1
    · rw [hx] at hb; simp at hb
    rw [hx] at hb; dsimp only at hb
    rcases hs : validate_reserve_batch env.check_schematron
        env.create_reserved_label true env.now dois1 with e | dois2
    · rw [hs] at hb; simp at hb
    rw [hs] at hb; dsimp only at hb
    rcases hn : env.node_long_name with e | contributor
    · rw [hn] at hb; simp at hb
    rw [hn] at hb; dsimp only at hb
    rcases hc : (complete_and_validate_dois env.validate env.validate_osti
        force env.now dois2 contributor env.doi_publisher true).2
      with e | dois3
    · rw [hc] at hb; simp at hb
    rw [hc] at hb; dsimp only at hb
    rw [if_pos rfl] at hb
    dsimp only at hb
    simp only [Except.ok.injEq, Prod.mk.injEq] at hb
    obtain ⟨h1, h2⟩ := hb
    subst h2
    refine ⟨dois3, h1.symm, ?_⟩
    rw [complete_and_validate_dois_ok hc]
    intro d hd
    rcases List.mem_map.mp hd with ⟨d0, _, rfl⟩
    rfl
  · intro ledger' lab h
    have hb := reserve_handler_ok h
    unfold reserve_run_body at hb
    rcases hp : env.parse_input with e | o
    · rw [hp] at hb; simp at hb
    rcases o with _ | dois0
    · rw [hp] at hb; simp at hb
    rw [hp] at hb; dsimp only at hb
    rcases hx : (if env.xsd_flag then
        validate_reserve_batch env.validate_xsd env.create_reserved_label
          false env.now dois0
      else .ok dois0) with e | dois1
    · rw [hx] at hb; simp at hb
    rw [hx] at hb; dsimp only at hb
    rcases hs : validate_reserve_batch env.check_schematron
        env.create_reserved_label false env.now dois1 with e | dois2
    · rw [hs] at hb; simp at hb
    rw [hs] at hb; dsimp only at hb
    rcases hn : env.node_long_name with e | contributor
    · rw [hn] at hb; simp at hb
    rw [hn] at hb; dsimp only at hb
    rcases hc : (complete_and_validate_dois env.validate env.validate_osti
        force env.now dois2 contributor env.doi_publisher false).2
      with e | dois3
    · rw [hc] at hb; simp at hb
    rw [hc] at hb; dsimp only at hb
    rw [if_neg (by simp)] at hb
    rcases hw : wc (env.create_reserved_label dois3) with e | ⟨dois4, label4⟩
    · rw [hw] at hb; simp at hb
    rw [hw] at hb; dsimp only at hb
    simp only [Except.ok.injEq, Prod.mk.injEq] at hb
    obtain ⟨h1, h2⟩ := hb
    subst h2
    exact ⟨dois4, env.create_reserved_label dois3, hw, h1.symm⟩

/-- C3 witness: on a concrete environment, the dry-run result is
unchanged when the web client is replaced by a failing one, the dry-run
commit carries status Reserved-not-submitted, and the non-dry-run commit
is exactly the client return. -/
theorem C3_reserve_dry_run_vs_submission_witness :
    reserve_run reserveEnvEx webClientEx "eng" "sub@x" "in.csv" true false [] =
      reserve_run reserveEnvEx webClientFailEx "eng" "sub@x" "in.csv" true
        false [] ∧
    (∃ ds, ([⟨"eng", "sub@x", [reservedDoiEx], "in.csv", "rec1"⟩] :
          List Transaction) =
        [] ++ [⟨"eng", "sub@x", ds, "in.csv", "rec1"⟩] ∧
      ∀ d ∈ ds, d.status = some DoiStatus.Reserved_not_submitted) ∧
    (∃ ds sent, webClientEx sent = .ok (ds, "osti:rec1") ∧
      ([⟨"eng", "sub@x", [ostiDoiEx], "in.csv", "osti:rec1"⟩] :
          List Transaction) =
        [] ++ [⟨"eng", "sub@x", ds, "in.csv", "osti:rec1"⟩]) := by
  have h := C3_reserve_dry_run_vs_submission reserveEnvEx webClientEx
    webClientFailEx "eng" "sub@x" "in.csv" false []
  exact ⟨h.1,
    h.2.1 [⟨"eng", "sub@x", [reservedDoiEx], "in.csv", "rec1"⟩] "rec1" rfl,
    h.2.2 [⟨"eng", "sub@x", [ostiDoiEx], "in.csv", "osti:rec1"⟩]
      "osti:rec1" rfl⟩

/-- C4: Draft given an identifier looks up the latest transaction for
it; if the stored output artifact does not exist the operation fails
with NoTransactionHistoryForLIDVIDException (and commits nothing);
otherwise the artifact entry for that identifier is reparsed, the
resulting record gets previous_status set to its pre-reversion status
and status set to Draft, and a new transaction is committed as the new
latest, distinct from the reverted one (the ledger grows by one). -/
theorem C4_draft_lidvid_reversion (env : DraftEnv) (node submitter : String)
    (ledger : List Transaction) (lidvid : String) :
    (∀ tr, env.transaction_for_lidvid lidvid = .ok tr →
      env.file_exists (tr.transaction_key ++ "/output.xml") = false →
      set_lidvid_to_draft env node submitter ledger lidvid =
        (ledger, .error (.noTransactionHistory
          ("Could not find an OSTI Label associated with LIDVID " ++ lidvid ++
           ". The database and transaction history location may be out of sync. " ++
           "Please try resubmitting the record in reserve or draft.")))) ∧
    (∀ tr doi ds errs, env.transaction_for_lidvid lidvid = .ok tr →
      env.file_exists (tr.transaction_key ++ "/output.xml") = true →
      env.parse_osti_xml (env.get_record_for_lidvid
        (tr.transaction_key ++ "/output.xml") lidvid) = (doi :: ds, errs) →
      set_lidvid_to_draft env node submitter ledger lidvid =
        (ledger ++ [⟨node, submitter,
            [{ doi with previous_status := doi.status,
                        status := some DoiStatus.Draft }],
            tr.transaction_key ++ "/output.xml",
            env.create_draft_label
              { doi with previous_status := doi.status,
                         status := some DoiStatus.Draft }⟩],
         .ok (env.create_draft_label
           { doi with previous_status := doi.status,
                      status := some DoiStatus.Draft })) ∧
      (set_lidvid_to_draft env node submitter ledger lidvid).1.length =
        ledger.length + 1) := by
  constructor
  · intro tr htr hfe
    simp only [set_lidvid_to_draft, htr, hfe]
    simp
  · intro tr doi ds errs htr hfe hparse
    have hrun : set_lidvid_to_draft env node submitter ledger lidvid =
        (ledger ++ [⟨node, submitter,
            [{ doi with previous_status := doi.status,
                        status := some DoiStatus.Draft }],
            tr.transaction_key ++ "/output.xml",
            env.create_draft_label
              { doi with previous_status := doi.status,
                         status := some DoiStatus.Draft }⟩],
         .ok (env.create_draft_label
           { doi with previous_status := doi.status,
                      status := some DoiStatus.Draft })) := by
      simp only [set_lidvid_to_draft, htr, hfe, hparse]
      simp
    exact ⟨hrun, by rw [hrun]; simp⟩

/-- C4 witness: on a concrete environment, the reversion of a known
LIDVID with a missing artifact fails with no history, and the reversion
of a known LIDVID with an artifact records the prior Reserved status and
commits one new transaction. -/
theorem C4_draft_lidvid_reversion_witness :
    set_lidvid_to_draft draftEnvEx "eng" "sub@x" [] "urn:missing" =
      ([], .error (.noTransactionHistory
        ("Could not find an OSTI Label associated with LIDVID " ++
         "urn:missing" ++
         ". The database and transaction history location may be out of sync. " ++
         "Please try resubmitting the record in reserve or draft."))) ∧
    set_lidvid_to_draft draftEnvEx "eng" "sub@x" [] "urn:known" =
      ([⟨"eng", "sub@x",
          [{ title := "urn:known", previous_status := some DoiStatus.Reserved,
             status := some DoiStatus.Draft }],
          "txdir/output.xml", "label:urn:known"⟩],
       .ok "label:urn:known") ∧
    (set_lidvid_to_draft draftEnvEx "eng" "sub@x" [] "urn:known").1.length =
      ([] : List Transaction).length + 1 := by
  have h := C4_draft_lidvid_reversion draftEnvEx "eng" "sub@x" []
  have h1 := (h "urn:missing").1 ⟨"nodir", "eng", "sub@x"⟩ rfl (by decide)
  have h2 := (h "urn:known").2 ⟨"txdir", "eng", "sub@x"⟩
    { title := "urn:known", status := some DoiStatus.Reserved } [] []
    rfl (by decide) rfl
  exact ⟨h1, h2.1, h2.2⟩

/-- C5 counterexample: in a concrete two-input Draft batch with force
not set, a business-rule failure on the first input raises the
WarningDOIException and aborts the whole remaining batch — the second
input, which succeeds (and commits a transaction) when processed alone,
is never processed and nothing is committed for it, contradicting the
claim that sibling inputs proceed past input k. -/
theorem C5_draft_batch_counterexample :
    draft_input_files draftEnvEx "eng" "sub@x" false none []
        "bad.xml,good.xml" =
      ([], .error (.warningDOI ["duplicate title"])) ∧
    draft_input_files draftEnvEx "eng" "sub@x" false none [] "good.xml" =
      ([⟨"eng", "sub@x", [goodDoiEx], "good.xml", "label:good.xml"⟩],
       .ok ["label:good.xml"]) := by
  constructor <;> rfl

/-- C5 amended: in a Draft batch with force not set, a business-rule
failure on input k is raised to the caller as a WarningDOIException and
aborts input k together with every later input; transactions already
committed for inputs before k remain committed (the resulting database
state is exactly the state after the inputs before k), whatever the
later inputs are. -/
theorem C5_draft_batch_warn_aborts_rest (env : DraftEnv)
    (node submitter contributor_value : String) (keywords : Option String)
    (pre post : List String) (bad : String)
    (ledger preLedger : List Transaction) (labels msgs : List String)
    (hpre : draft_process_files env node submitter contributor_value false
      keywords pre ledger = (preLedger, .ok labels))
    (hbad : run_single_file env node submitter contributor_value false
      keywords preLedger bad = (preLedger, .error (.warningDOI msgs))) :
    draft_process_files env node submitter contributor_value false keywords
      (pre ++ bad :: post) ledger = (preLedger, .error (.warningDOI msgs)) := by
  induction pre generalizing ledger labels with
  | nil =>
    simp only [draft_process_files, Prod.mk.injEq] at hpre
    obtain ⟨h1, _⟩ := hpre
    subst h1
    simp only [List.nil_append, draft_process_files, hbad]
  | cons a pre ih =>
    rw [List.cons_append]
    simp only [draft_process_files] at hpre ⊢
    rcases hr : run_single_file env node submitter contributor_value false
        keywords ledger a with ⟨l, r⟩
    rcases r with e | o
    · simp [hr] at hpre
    rcases o with _ | label
    · simp only [hr] at hpre ⊢
      exact ih l labels hpre
    · simp only [hr] at hpre ⊢
      rcases hrec : draft_process_files env node submitter contributor_value
          false keywords pre l with ⟨l2, r2⟩
      rcases r2 with e | labels2
      · simp [hrec] at hpre
      · simp only [hrec, Prod.mk.injEq, Except.ok.injEq] at hpre
        obtain ⟨h1, _⟩ := hpre
        subst h1
        simp only [ih l labels2 hrec]

/-- C5 witness: a concrete batch good-bad-good with force not set
commits the first input, raises the warning for the second, and never
reaches the third. -/
theorem C5_draft_batch_warn_aborts_rest_witness :
    draft_process_files draftEnvEx "eng" "sub@x" "Engineering" false none
      (["good.xml"] ++ "bad.xml" :: ["good2.xml"]) [] =
      ([⟨"eng", "sub@x", [goodDoiEx], "good.xml", "label:good.xml"⟩],
       .error (.warningDOI ["duplicate title"])) :=
  C5_draft_batch_warn_aborts_rest draftEnvEx "eng" "sub@x" "Engineering"
    none ["good.xml"] ["good2.xml"] "bad.xml" []
    [⟨"eng", "sub@x", [goodDoiEx], "good.xml", "label:good.xml"⟩]
    ["label:good.xml"] ["duplicate title"] rfl rfl

/-- C6: the claim that an unsupported extension never causes the
operation to fail is the intent (the code logs `file ... not supported`
as a notice), but Reserve's `_read_from_path` then implicitly returns
None, and the directory loop's `dois.extend(None)` raises a TypeError:
a directory containing a single unsupported file makes the whole
operation fail, as evaluated here.  A top-level unsupported file yields
the None that later crashes `run`.  (Draft's resolver and transformer do
skip unsupported files.) -/
theorem C6_reserve_unsupported_file_in_directory_raises :
    read_from_path ⟨fun p => .ok [{ title := p }],
        fun _ => .ok [{ title := "row" }], fun _ => .ok [{ title := "row" }]⟩
      (.dir "mydir" [.file "mydir/notes.txt"]) =
      .error (.typeError "NoneType object is not iterable") ∧
    read_from_path ⟨fun p => .ok [{ title := p }],
        fun _ => .ok [{ title := "row" }], fun _ => .ok [{ title := "row" }]⟩
      (.file "mydir/notes.txt") = .ok none := by
  constructor <;> rfl

/-- C7 counterexample: a tabular input that decodes to zero records does
not surface an InputFormatError to the caller: the raised
InputFormatException is caught by the reader itself, which logs it and
calls exit(1), so the observable outcome is a SystemExit, not the
claimed InputFormatError. -/
theorem C7_zero_record_counterexample :
    read_from_local_xlsx (fun _ => .ok []) "a.xlsx" =
      .error (.systemExit 1) ∧
    isInputFormatResult (read_from_local_xlsx (fun _ => .ok []) "a.xlsx") =
      false ∧
    read_from_local_csv (fun _ => .ok []) "a.csv" =
      .error (.systemExit 1) ∧
    isInputFormatResult (read_from_local_csv (fun _ => .ok []) "a.csv") =
      false := by
  exact ⟨rfl, rfl, rfl, rfl⟩

/-- C7 amended: a tabular input that decodes to zero records is never a
silent no-op — the zero-record InputFormatException is raised, but it is
caught inside the reader, logged, and turned into a process exit
(SystemExit with code 1) instead of an InputFormatError propagating to
the caller; a successful reader result always carries at least one
record. -/
theorem C7_zero_record_batch_always_errors
    (parse : String → Except PyExc (List Doi)) (path : String) :
    (parse path = .ok [] →
      read_from_local_xlsx parse path = .error (.systemExit 1) ∧
      read_from_local_csv parse path = .error (.systemExit 1)) ∧
    (∀ dois, read_from_local_xlsx parse path = .ok dois → dois ≠ []) ∧
    (∀ dois, read_from_local_csv parse path = .ok dois → dois ≠ []) := by
  refine ⟨?_, ?_, ?_⟩
  · intro hp
    constructor <;> simp [read_from_local_xlsx, read_from_local_csv, hp]
  · intro dois h
    simp only [read_from_local_xlsx] at h
    rcases hp : parse path with e | ds
    · rw [hp] at h
      rcases e <;> simp at h
    · rw [hp] at h
      dsimp only at h
      split at h
      · simp at h
      · rename_i hlen
        simp only [Except.ok.injEq] at h
        subst h
        intro hnil
        exact hlen (by rw [hnil]; rfl)
  · intro dois h
    simp only [read_from_local_csv] at h
    rcases hp : parse path with e | ds
    · rw [hp] at h
      rcases e <;> simp at h
    · rw [hp] at h
      dsimp only at h
      split at h
      · simp at h
      · rename_i hlen
        simp only [Except.ok.injEq] at h
        subst h
        intro hnil
        exact hlen (by rw [hnil]; rfl)

/-- C7 witness: a concrete empty decode hits the SystemExit outcome on
both readers, and a concrete one-record decode is accepted and
non-empty. -/
theorem C7_zero_record_batch_always_errors_witness :
    (read_from_local_xlsx (fun _ => .ok []) "b.xlsx" =
        .error (.systemExit 1) ∧
      read_from_local_csv (fun _ => .ok []) "b.xlsx" =
        .error (.systemExit 1)) ∧
    ([{ title := "row" }] : List Doi) ≠ [] := by
  refine ⟨(C7_zero_record_batch_always_errors (fun _ => .ok []) "b.xlsx").1 rfl, ?_⟩
  exact (C7_zero_record_batch_always_errors
    (fun _ => .ok [{ title := "row" }]) "c.csv").2.2 [{ title := "row" }] rfl

/-- C8: a Release request for an identifier with no prior transaction
fails with UnknownLIDVIDException, reported as not-found (404); one
whose latest transaction exists but whose stored output artifact is
missing fails with NoTransactionHistoryForLIDVIDException (reported
through the generic 500 handler); in neither case is a transaction
committed (the database state is returned unchanged). -/
theorem C8_release_error_paths (env : ReleaseEnv) (ledger : List Transaction)
    (lidvid : String) (force no_review : Bool) :
    (∀ m, env.transaction_for_lidvid lidvid = .error (.unknownLIDVID m) →
      post_release_doi env ledger lidvid force no_review =
        (ledger, ⟨404, some m, []⟩)) ∧
    (∀ tr, env.transaction_for_lidvid lidvid = .ok tr →
      env.file_exists (tr.transaction_key ++ "/output.xml") = false →
      post_release_doi env ledger lidvid force no_review =
        (ledger, ⟨500, some
          ("Could not find an OSTI Label associated with LIDVID " ++ lidvid ++
           ". The database and transaction history location may be out of sync. " ++
           "Please try resubmitting the record in reserve or draft."), []⟩)) := by
  constructor
  · intro m hm
    simp only [post_release_doi, hm, api_error_response]
  · intro tr htr hfe
    simp only [post_release_doi, htr, hfe]
    simp [api_error_response, pyExcMessage]

/-- C8 witness: on a concrete environment, an unknown LIDVID yields 404
and a known LIDVID with a missing artifact yields the
no-transaction-history failure, both leaving the database unchanged. -/
theorem C8_release_error_paths_witness :
    post_release_doi releaseEnvEx [] "urn:other" false true =
      ([], ⟨404, some ("No record for " ++ "urn:other"), []⟩) ∧
    post_release_doi releaseEnvEx [] "urn:known" false true =
      ([], ⟨500, some
        ("Could not find an OSTI Label associated with LIDVID " ++
         "urn:known" ++
         ". The database and transaction history location may be out of sync. " ++
         "Please try resubmitting the record in reserve or draft."), []⟩) := by
  have h := C8_release_error_paths releaseEnvEx [] "urn:other" false true
  have h' := C8_release_error_paths releaseEnvEx [] "urn:known" false true
  exact ⟨h.1 ("No record for " ++ "urn:other") rfl,
         h'.2 ⟨"nodir", "eng", "sub@x"⟩ rfl rfl⟩

theorem keywords_foldl_insert_mem (l : List String) (d : Doi) (x : String)
    (hx : x ∈ d.keywords) :
    x ∈ (l.foldl (fun d k =>
      { d with keywords := insert (pyStrip k) d.keywords }) d).keywords := by
  induction l generalizing d with
  | nil => exact hx
  | cons a l ih => exact ih _ (Finset.mem_insert_of_mem hx)

theorem keywords_foldl_mem (l : List String) (d : Doi) :
    ∀ t ∈ l, pyStrip t ∈ (l.foldl (fun d k =>
      { d with keywords := insert (pyStrip k) d.keywords }) d).keywords := by
  induction l generalizing d with
  | nil => intro t ht; cases ht
  | cons a l ih =>
    intro t ht
    rcases List.mem_cons.mp ht with rfl | ht
    · exact keywords_foldl_insert_mem l _ _ (Finset.mem_insert_self _ _)
    · exact ih _ t ht

theorem add_extra_keywords_mem (s : String) (d : Doi) :
    ∀ t ∈ pySplit (Char.ofNat 44) s,
      pyStrip t ∈ (add_extra_keywords s d).keywords := by
  simpa [add_extra_keywords] using
    keywords_foldl_mem (pySplit (Char.ofNat 44) s) d

/-- C9: every Draft record successfully produced from input content
carries the long name of the submitting node (the contributor value) in
its keyword set, in addition to any caller-supplied keywords, which are
split on commas and whitespace-stripped before being added. -/
theorem C9_draft_contributor_and_keywords (env : DraftEnv)
    (contributor_value : String) (keywords : Option String)
    (input_file label : String) (doi : Doi)
    (h : transform_pds4_label_into_osti_record env contributor_value
      keywords input_file = .ok (some (label, doi))) :
    contributor_value ∈ doi.keywords ∧
    (∀ s, keywords = some s → s ≠ "" →
      ∀ t ∈ pySplit (Char.ofNat 44) s, pyStrip t ∈ doi.keywords) := by
  have hbuild : ∃ tree,
      (label, doi) = draft_build_doi env contributor_value keywords tree := by
    simp only [transform_pds4_label_into_osti_record] at h
    split at h
    · split at h
      · rcases hp : env.parse_xml input_file with e | tree
        · rw [hp] at h; simp at h
        · rw [hp] at h
          dsimp only at h
          simp only [Except.ok.injEq, Option.some.injEq] at h
          exact ⟨tree, h.symm⟩
      · simp at h
    · simp only [Except.ok.injEq, Option.some.injEq] at h
      exact ⟨env.fetch_url input_file, h.symm⟩
  obtain ⟨tree, heq⟩ := hbuild
  have hdoi : doi = (draft_build_doi env contributor_value keywords tree).2 :=
    congrArg Prod.snd heq
  constructor
  · rw [hdoi]
    simp only [draft_build_doi]
    exact Finset.mem_insert_self _ _
  · intro s hs hne t ht
    rw [hdoi]
    simp only [draft_build_doi, hs]
    rw [if_pos hne]
    exact Finset.mem_insert_of_mem (add_extra_keywords_mem s _ t ht)

/-- C9 witness: the record built from `good.xml` with caller keywords
"k1, k2" contains the node long name and the stripped second token. -/
theorem C9_draft_contributor_and_keywords_witness :
    "Engineering" ∈ (draft_build_doi draftEnvEx "Engineering"
      (some "k1, k2") "good.xml").2.keywords ∧
    pyStrip " k2" ∈ (draft_build_doi draftEnvEx "Engineering"
      (some "k1, k2") "good.xml").2.keywords := by
  have h := C9_draft_contributor_and_keywords draftEnvEx "Engineering"
    (some "k1, k2") "good.xml"
    (draft_build_doi draftEnvEx "Engineering" (some "k1, k2") "good.xml").1
    (draft_build_doi draftEnvEx "Engineering" (some "k1, k2") "good.xml").2
    rfl
  exact ⟨h.1, h.2 "k1, k2" rfl (by decide) " k2" (by decide)⟩

/-- C10: a Draft invocation with neither input nor lidvid raises
ValueError and commits nothing; when a (truthy) lidvid is provided the
reversion path is taken and the input content is ignored — the result
is independent of the input argument and equals the reversion
outcome. -/
theorem C10_draft_run_arguments (env : DraftEnv) (node submitter : String)
    (force : Bool) (keywords : Option String) (ledger : List Transaction) :
    draft_run env node submitter force keywords ledger none none =
      (ledger, .error (.valueError
        ("A value must be provided for either --input or --lidvid " ++
         "when using the Draft action."))) ∧
    (∀ input input' lidvid, truthy lidvid = true →
      draft_run env node submitter force keywords ledger input lidvid =
        draft_run env node submitter force keywords ledger input' lidvid) ∧
    (∀ input lidvid, truthy lidvid = true →
      draft_run env node submitter force keywords ledger input lidvid =
        (match set_lidvid_to_draft env node submitter ledger
            (lidvid.getD "") with
         | (l, .error e) => (l, .error e)
         | (l, .ok label) => (l, .ok (some (.single label))))) := by
  refine ⟨?_, ?_, ?_⟩
  · simp [draft_run]
  · intro input input' lidvid ht
    have hl : ¬(input = none ∧ lidvid = none) := by
      rintro ⟨-, h⟩; rw [h] at ht; simp [truthy] at ht
    have hl' : ¬(input' = none ∧ lidvid = none) := by
      rintro ⟨-, h⟩; rw [h] at ht; simp [truthy] at ht
    simp only [draft_run]
    rw [if_neg hl, if_neg hl', if_pos ht, if_pos ht]
  · intro input lidvid ht
    have hl : ¬(input = none ∧ lidvid = none) := by
      rintro ⟨-, h⟩; rw [h] at ht; simp [truthy] at ht
    simp only [draft_run]
    rw [if_neg hl, if_pos ht]

/-- C10 witness: with both arguments provided, two different inputs give
the same result, which is the reversion outcome for the lidvid. -/
theorem C10_draft_run_arguments_witness :
    draft_run draftEnvEx "eng" "sub@x" false none [] (some "ignored.xml")
        (some "urn:known") =
      draft_run draftEnvEx "eng" "sub@x" false none [] (some "other.xml")
        (some "urn:known") ∧
    draft_run draftEnvEx "eng" "sub@x" false none [] (some "ignored.xml")
        (some "urn:known") =
      (match set_lidvid_to_draft draftEnvEx "eng" "sub@x" []
          ((some "urn:known").getD "") with
       | (l, .error e) => (l, .error e)
       | (l, .ok label) => (l, .ok (some (.single label)))) := by
  have h := C10_draft_run_arguments draftEnvEx "eng" "sub@x" false none []
  exact ⟨h.2.1 (some "ignored.xml") (some "other.xml") (some "urn:known")
      (by decide),
    h.2.2 (some "ignored.xml") (some "urn:known") (by decide)⟩
